import Mathlib

/-!
Verification of the clwind terminal text-styling library (src/lib.rs).

The Rust source is shallowly embedded: `Color`, `Style` and the `CLW`
builder become Lean inductive/structure types, the ANSI-code mappings and
the `Display` rendering routine become pure Lean functions, and the
`println!` debug side effect in the Hex foreground path is made explicit
as a separate stdout-trace function.
-/

/-- Embeds `enum Color` from src/lib.rs: 16 named colors plus
`Rgb(u8,u8,u8)`, `Color256(u8)` and `Hex(u32)`.  Machine integers are
carried as `Nat`; 8-bit / 32-bit range constraints appear as theorem
hypotheses where they matter. -/
inductive Color where
  | Black
  | Red
  | Green
  | Yellow
  | Blue
  | Magenta
  | Cyan
  | White
  | BrightBlack
  | BrightRed
  | BrightGreen
  | BrightYellow
  | BrightBlue
  | BrightMagenta
  | BrightCyan
  | BrightWhite
  | Rgb (r g b : Nat)
  | Color256 (c : Nat)
  | Hex (h : Nat)
deriving DecidableEq

/-- Embeds `Color::to_ansi_code` (the pure returned string).  In the
`Hex` arm, `(h >> 16) as u8` is `h / 65536 % 256`, `((h >> 8) & 0xFF) as
u8` is `h / 256 % 256`, and `(h & 0xFF) as u8` is `h % 256`. -/
def Color.to_ansi_code : Color → String
  | .Black => "30"
  | .Red => "31"
  | .Green => "32"
  | .Yellow => "33"
  | .Blue => "34"
  | .Magenta => "35"
  | .Cyan => "36"
  | .White => "37"
  | .BrightBlack => "90"
  | .BrightRed => "91"
  | .BrightGreen => "92"
  | .BrightYellow => "93"
  | .BrightBlue => "94"
  | .BrightMagenta => "95"
  | .BrightCyan => "96"
  | .BrightWhite => "97"
  | .Rgb r g b => s!"38;2;{r};{g};{b}"
  | .Color256 c => s!"38;5;{c}"
  | .Hex h => s!"38;2;{h / 65536 % 256};{h / 256 % 256};{h % 256}"

/-- The lines `Color::to_ansi_code` writes to standard output as a side
effect: the `Hex` arm executes `println!("{} {} {}", r, g, b)` before
returning; every other arm prints nothing. -/
def Color.to_ansi_code_stdout : Color → List String
  | .Hex h => [s!"{h / 65536 % 256} {h / 256 % 256} {h % 256}"]
  | _ => []

/-- Embeds `str::parse::<u8>` as used in `Color::to_bg_ansi_code`: an
optional leading plus sign followed by at least one decimal digit,
value at most 255; anything else fails. -/
def parse_u8 (s : String) : Option Nat :=
  let cs := match s.data with
    | '+' :: rest => rest
    | cs => cs
  if cs ≠ [] ∧ cs.all Char.isDigit then
    let n := cs.foldl (fun a c => a * 10 + (c.toNat - 48)) 0
    if n ≤ 255 then some n else none
  else none

/-- Embeds `Color::to_bg_ansi_code`.  The wildcard arm (named colors)
parses the foreground code back to a `u8`, falls back to 30 on parse
failure (`unwrap_or(30)`), and adds 10. -/
def Color.to_bg_ansi_code : Color → String
  | .Rgb r g b => s!"48;2;{r};{g};{b}"
  | .Color256 c => s!"48;5;{c}"
  | .Hex h => s!"48;2;{h / 65536 % 256};{h / 256 % 256};{h % 256}"
  | c => toString ((parse_u8 c.to_ansi_code).getD 30 + 10)

/-- Embeds `enum Style` from src/lib.rs. -/
inductive Style where
  | Bold
  | Dim
  | Italic
  | Underline
  | Blink
  | Reverse
  | Hidden
  | Strikethrough
deriving DecidableEq

/-- Embeds `Style::to_ansi_code`. -/
def Style.to_ansi_code : Style → String
  | .Bold => "1"
  | .Dim => "2"
  | .Italic => "3"
  | .Underline => "4"
  | .Blink => "5"
  | .Reverse => "7"
  | .Hidden => "8"
  | .Strikethrough => "9"

/-- Embeds `struct CLW`: text payload, optional background color,
optional text (foreground) color, and the ordered style list. -/
structure CLW where
  value : String
  bg : Option Color
  text : Option Color
  font : List Style
deriving DecidableEq

/-- Embeds `CLW::new`: no foreground, no background, no styles. -/
def CLW.new (value : String) : CLW :=
  { value := value, text := none, bg := none, font := [] }

/-- Embeds the public constructor `clw`. -/
def clw (str : String) : CLW :=
  CLW.new str

/-- Embeds the builder method `CLW::text` (sets the foreground color);
named `setText` because `CLW.text` is the field projection in Lean. -/
def CLW.setText (c : CLW) (color : Color) : CLW :=
  { c with text := some color }

/-- Embeds the builder method `CLW::bg` (sets the background color). -/
def CLW.setBg (c : CLW) (color : Color) : CLW :=
  { c with bg := some color }

/-- Embeds the builder method `CLW::font` (appends a style). -/
def CLW.addFont (c : CLW) (style : Style) : CLW :=
  { c with font := c.font ++ [style] }

/-- Embeds the `codes` vector built in `impl fmt::Display for CLW`:
foreground code if set, then background code if set, then each style's
code in list order. -/
def CLW.codes (c : CLW) : List String :=
  (match c.text with
    | some color => [color.to_ansi_code]
    | none => [])
  ++ (match c.bg with
    | some color => [color.to_bg_ansi_code]
    | none => [])
  ++ c.font.map Style.to_ansi_code

/-- Embeds the string produced by `impl fmt::Display for CLW`: the plain
payload when no codes are set, otherwise `ESC[` + codes joined by `;` +
`m` + payload + `ESC[0m`. -/
def CLW.render (c : CLW) : String :=
  match c.codes with
  | [] => c.value
  | cs => "\x1b[" ++ String.intercalate ";" cs ++ "m" ++ c.value ++ "\x1b[0m"

/-- The lines rendering writes to standard output as a side effect: the
trace of `to_ansi_code` on the foreground (the background path reaches
`to_ansi_code` only for named colors, which print nothing; styles never
print). -/
def CLW.renderStdout (c : CLW) : List String :=
  match c.text with
  | some color => color.to_ansi_code_stdout
  | none => []

/-- The 40 convenience setters of `CLW`, each embedding the
source method of the same name: a thin alias for the general setter at a
fixed enum value. -/
def CLW.text_black (c : CLW) : CLW := c.setText Color.Black

def CLW.text_red (c : CLW) : CLW := c.setText Color.Red

def CLW.text_green (c : CLW) : CLW := c.setText Color.Green

def CLW.text_yellow (c : CLW) : CLW := c.setText Color.Yellow

def CLW.text_blue (c : CLW) : CLW := c.setText Color.Blue

def CLW.text_magenta (c : CLW) : CLW := c.setText Color.Magenta

def CLW.text_cyan (c : CLW) : CLW := c.setText Color.Cyan

def CLW.text_white (c : CLW) : CLW := c.setText Color.White

def CLW.text_bright_black (c : CLW) : CLW := c.setText Color.BrightBlack

def CLW.text_bright_red (c : CLW) : CLW := c.setText Color.BrightRed

def CLW.text_bright_green (c : CLW) : CLW := c.setText Color.BrightGreen

def CLW.text_bright_yellow (c : CLW) : CLW := c.setText Color.BrightYellow

def CLW.text_bright_blue (c : CLW) : CLW := c.setText Color.BrightBlue

def CLW.text_bright_magenta (c : CLW) : CLW := c.setText Color.BrightMagenta

def CLW.text_bright_cyan (c : CLW) : CLW := c.setText Color.BrightCyan

def CLW.text_bright_white (c : CLW) : CLW := c.setText Color.BrightWhite

def CLW.bg_black (c : CLW) : CLW := c.setBg Color.Black

def CLW.bg_red (c : CLW) : CLW := c.setBg Color.Red

def CLW.bg_green (c : CLW) : CLW := c.setBg Color.Green

def CLW.bg_yellow (c : CLW) : CLW := c.setBg Color.Yellow

def CLW.bg_blue (c : CLW) : CLW := c.setBg Color.Blue

def CLW.bg_magenta (c : CLW) : CLW := c.setBg Color.Magenta

def CLW.bg_cyan (c : CLW) : CLW := c.setBg Color.Cyan

def CLW.bg_white (c : CLW) : CLW := c.setBg Color.White

def CLW.bg_bright_black (c : CLW) : CLW := c.setBg Color.BrightBlack

def CLW.bg_bright_red (c : CLW) : CLW := c.setBg Color.BrightRed

def CLW.bg_bright_green (c : CLW) : CLW := c.setBg Color.BrightGreen

def CLW.bg_bright_yellow (c : CLW) : CLW := c.setBg Color.BrightYellow

def CLW.bg_bright_blue (c : CLW) : CLW := c.setBg Color.BrightBlue

def CLW.bg_bright_magenta (c : CLW) : CLW := c.setBg Color.BrightMagenta

def CLW.bg_bright_cyan (c : CLW) : CLW := c.setBg Color.BrightCyan

def CLW.bg_bright_white (c : CLW) : CLW := c.setBg Color.BrightWhite

def CLW.font_bold (c : CLW) : CLW := c.addFont Style.Bold

def CLW.font_dim (c : CLW) : CLW := c.addFont Style.Dim

def CLW.font_italic (c : CLW) : CLW := c.addFont Style.Italic

def CLW.font_underline (c : CLW) : CLW := c.addFont Style.Underline

def CLW.font_blink (c : CLW) : CLW := c.addFont Style.Blink

def CLW.font_reverse (c : CLW) : CLW := c.addFont Style.Reverse

def CLW.font_hidden (c : CLW) : CLW := c.addFont Style.Hidden

def CLW.font_strikethrough (c : CLW) : CLW := c.addFont Style.Strikethrough

/-- Holds exactly on the 16 named colors (not Rgb, Color256 or Hex). -/
def Color.isNamed : Color → Bool
  | .Rgb _ _ _ => false
  | .Color256 _ => false
  | .Hex _ => false
  | _ => true

/-- C1: for every CLW with at least one of foreground, background, or
styles configured, the rendered string is the escape-introducer, the
token list (foreground code if set, then background code if set, then
each style's code in insertion order) joined by `;`, the letter `m`, the
payload verbatim, and the reset sequence `ESC[0m`. -/
theorem render_wraps_tokens (c : CLW)
    (h : c.text ≠ none ∨ c.bg ≠ none ∨ c.font ≠ []) :
    c.render = "\x1b[" ++ String.intercalate ";"
      ((c.text.elim [] fun color => [color.to_ansi_code]) ++
       (c.bg.elim [] fun color => [color.to_bg_ansi_code]) ++
       c.font.map Style.to_ansi_code) ++ "m" ++ c.value ++ "\x1b[0m" := by
  obtain ⟨v, bg, tx, fs⟩ := c
  cases tx <;> cases bg <;> cases fs <;>
    simp_all [CLW.render, CLW.codes, Option.elim]

/-- Witness for C1: a red foreground with styles Bold then Underline
renders as `ESC[31;1;4mhiESC[0m`. -/
theorem render_wraps_tokens_witness :
    (({ value := "hi", bg := none, text := some Color.Red,
        font := [Style.Bold, Style.Underline] } : CLW).text ≠ none ∨
     ({ value := "hi", bg := none, text := some Color.Red,
        font := [Style.Bold, Style.Underline] } : CLW).bg ≠ none ∨
     ({ value := "hi", bg := none, text := some Color.Red,
        font := [Style.Bold, Style.Underline] } : CLW).font ≠ []) ∧
    ({ value := "hi", bg := none, text := some Color.Red,
       font := [Style.Bold, Style.Underline] } : CLW).render =
      "\x1b[31;1;4mhi\x1b[0m" :=
  ⟨Or.inl (by decide),
   render_wraps_tokens
     { value := "hi", bg := none, text := some Color.Red,
       font := [Style.Bold, Style.Underline] }
     (Or.inl (by decide))⟩

/-- C2 (code bug): computing the foreground code of `Hex(0xFF8800)` DOES
produce diagnostic output — `to_ansi_code` executes
`println!("{} {} {}", r, g, b)` in its Hex arm, so rendering a CLW with
a Hex foreground writes `255 136 0` to standard output, contradicting
the claim that rendering is side-effect-free. -/
theorem hex_foreground_prints_debug :
    (Color.Hex 0xFF8800).to_ansi_code_stdout = ["255 136 0"] ∧
    ((clw "hi").setText (Color.Hex 0xFF8800)).renderStdout = ["255 136 0"] := by
  decide

/-- C3: each of the 16 named colors has the conventional fixed
foreground code and a background code numerically 10 larger. -/
theorem named_color_codes :
    Color.Black.to_ansi_code = "30" ∧ Color.Black.to_bg_ansi_code = "40" ∧
    Color.Red.to_ansi_code = "31" ∧ Color.Red.to_bg_ansi_code = "41" ∧
    Color.Green.to_ansi_code = "32" ∧ Color.Green.to_bg_ansi_code = "42" ∧
    Color.Yellow.to_ansi_code = "33" ∧ Color.Yellow.to_bg_ansi_code = "43" ∧
    Color.Blue.to_ansi_code = "34" ∧ Color.Blue.to_bg_ansi_code = "44" ∧
    Color.Magenta.to_ansi_code = "35" ∧ Color.Magenta.to_bg_ansi_code = "45" ∧
    Color.Cyan.to_ansi_code = "36" ∧ Color.Cyan.to_bg_ansi_code = "46" ∧
    Color.White.to_ansi_code = "37" ∧ Color.White.to_bg_ansi_code = "47" ∧
    Color.BrightBlack.to_ansi_code = "90" ∧ Color.BrightBlack.to_bg_ansi_code = "100" ∧
    Color.BrightRed.to_ansi_code = "91" ∧ Color.BrightRed.to_bg_ansi_code = "101" ∧
    Color.BrightGreen.to_ansi_code = "92" ∧ Color.BrightGreen.to_bg_ansi_code = "102" ∧
    Color.BrightYellow.to_ansi_code = "93" ∧ Color.BrightYellow.to_bg_ansi_code = "103" ∧
    Color.BrightBlue.to_ansi_code = "94" ∧ Color.BrightBlue.to_bg_ansi_code = "104" ∧
    Color.BrightMagenta.to_ansi_code = "95" ∧ Color.BrightMagenta.to_bg_ansi_code = "105" ∧
    Color.BrightCyan.to_ansi_code = "96" ∧ Color.BrightCyan.to_bg_ansi_code = "106" ∧
    Color.BrightWhite.to_ansi_code = "97" ∧ Color.BrightWhite.to_bg_ansi_code = "107" := by
  decide

/-- C4: for every 32-bit `h`, `Hex h` formats as `38;2;r;g;b` /
`48;2;r;g;b` with `r`, `g`, `b` the three low bytes of `h`, and bits
above bit 23 are discarded: `Hex h` and `Hex (h % 2^24)` produce
identical codes. -/
theorem hex_color_codes (h : Nat) (hw : h < 2 ^ 32) :
    (Color.Hex h).to_ansi_code = s!"38;2;{h / 65536 % 256};{h / 256 % 256};{h % 256}" ∧
    (Color.Hex h).to_bg_ansi_code = s!"48;2;{h / 65536 % 256};{h / 256 % 256};{h % 256}" ∧
    (Color.Hex h).to_ansi_code = (Color.Hex (h % 2 ^ 24)).to_ansi_code ∧
    (Color.Hex h).to_bg_ansi_code = (Color.Hex (h % 2 ^ 24)).to_bg_ansi_code := by
  clear hw
  have e1 : h % 2 ^ 24 / 65536 % 256 = h / 65536 % 256 := by
    simp only [show (2 : Nat) ^ 24 = 16777216 from by norm_num]; omega
  have e2 : h % 2 ^ 24 / 256 % 256 = h / 256 % 256 := by
    simp only [show (2 : Nat) ^ 24 = 16777216 from by norm_num]; omega
  have e3 : h % 2 ^ 24 % 256 = h % 256 := by
    simp only [show (2 : Nat) ^ 24 = 16777216 from by norm_num]; omega
  refine ⟨rfl, rfl, ?_, ?_⟩ <;>
    simp only [Color.to_ansi_code, Color.to_bg_ansi_code, e1, e2, e3]

/-- Witness for C4: `Hex 0xFF8800` gives foreground `38;2;255;136;0`. -/
theorem hex_color_codes_witness :
    (0xFF8800 : Nat) < 2 ^ 32 ∧
    ((Color.Hex 0xFF8800).to_ansi_code = "38;2;255;136;0" ∧
     (Color.Hex 0xFF8800).to_bg_ansi_code = "48;2;255;136;0" ∧
     (Color.Hex 0xFF8800).to_ansi_code = (Color.Hex (0xFF8800 % 2 ^ 24)).to_ansi_code ∧
     (Color.Hex 0xFF8800).to_bg_ansi_code = (Color.Hex (0xFF8800 % 2 ^ 24)).to_bg_ansi_code) :=
  ⟨by norm_num, hex_color_codes 0xFF8800 (by norm_num)⟩

/-- C5: for all 8-bit components, `Rgb r g b` gives `38;2;r;g;b` /
`48;2;r;g;b`, and for every 8-bit index, `Color256 idx` gives
`38;5;idx` / `48;5;idx`. -/
theorem rgb_palette_codes (r g b idx : Nat)
    (hr : r ≤ 255) (hg : g ≤ 255) (hb : b ≤ 255) (hi : idx ≤ 255) :
    (Color.Rgb r g b).to_ansi_code = s!"38;2;{r};{g};{b}" ∧
    (Color.Rgb r g b).to_bg_ansi_code = s!"48;2;{r};{g};{b}" ∧
    (Color.Color256 idx).to_ansi_code = s!"38;5;{idx}" ∧
    (Color.Color256 idx).to_bg_ansi_code = s!"48;5;{idx}" := by
  clear hr hg hb hi
  exact ⟨rfl, rfl, rfl, rfl⟩

/-- Witness for C5: `Rgb 10 20 30` and palette index 118. -/
theorem rgb_palette_codes_witness :
    ((10 : Nat) ≤ 255 ∧ (20 : Nat) ≤ 255 ∧ (30 : Nat) ≤ 255 ∧ (118 : Nat) ≤ 255) ∧
    ((Color.Rgb 10 20 30).to_ansi_code = "38;2;10;20;30" ∧
     (Color.Rgb 10 20 30).to_bg_ansi_code = "48;2;10;20;30" ∧
     (Color.Color256 118).to_ansi_code = "38;5;118" ∧
     (Color.Color256 118).to_bg_ansi_code = "48;5;118") :=
  ⟨by decide, rgb_palette_codes 10 20 30 118 (by decide) (by decide) (by decide) (by decide)⟩

/-- C6: a freshly constructed CLW has no foreground, no background and
no styles, and renders to the payload exactly, byte for byte. -/
theorem render_plain_passthrough (s : String) :
    (clw s).text = none ∧ (clw s).bg = none ∧ (clw s).font = [] ∧
    (clw s).render = s :=
  ⟨rfl, rfl, rfl, rfl⟩

/-- C7: each of the 40 named convenience setters is extensionally equal
to the corresponding general setter at the fixed enum value, on every
CLW value. -/
theorem convenience_setters_equiv (c : CLW) :
    c.text_black = c.setText Color.Black ∧
    c.text_red = c.setText Color.Red ∧
    c.text_green = c.setText Color.Green ∧
    c.text_yellow = c.setText Color.Yellow ∧
    c.text_blue = c.setText Color.Blue ∧
    c.text_magenta = c.setText Color.Magenta ∧
    c.text_cyan = c.setText Color.Cyan ∧
    c.text_white = c.setText Color.White ∧
    c.text_bright_black = c.setText Color.BrightBlack ∧
    c.text_bright_red = c.setText Color.BrightRed ∧
    c.text_bright_green = c.setText Color.BrightGreen ∧
    c.text_bright_yellow = c.setText Color.BrightYellow ∧
    c.text_bright_blue = c.setText Color.BrightBlue ∧
    c.text_bright_magenta = c.setText Color.BrightMagenta ∧
    c.text_bright_cyan = c.setText Color.BrightCyan ∧
    c.text_bright_white = c.setText Color.BrightWhite ∧
    c.bg_black = c.setBg Color.Black ∧
    c.bg_red = c.setBg Color.Red ∧
    c.bg_green = c.setBg Color.Green ∧
    c.bg_yellow = c.setBg Color.Yellow ∧
    c.bg_blue = c.setBg Color.Blue ∧
    c.bg_magenta = c.setBg Color.Magenta ∧
    c.bg_cyan = c.setBg Color.Cyan ∧
    c.bg_white = c.setBg Color.White ∧
    c.bg_bright_black = c.setBg Color.BrightBlack ∧
    c.bg_bright_red = c.setBg Color.BrightRed ∧
    c.bg_bright_green = c.setBg Color.BrightGreen ∧
    c.bg_bright_yellow = c.setBg Color.BrightYellow ∧
    c.bg_bright_blue = c.setBg Color.BrightBlue ∧
    c.bg_bright_magenta = c.setBg Color.BrightMagenta ∧
    c.bg_bright_cyan = c.setBg Color.BrightCyan ∧
    c.bg_bright_white = c.setBg Color.BrightWhite ∧
    c.font_bold = c.addFont Style.Bold ∧
    c.font_dim = c.addFont Style.Dim ∧
    c.font_italic = c.addFont Style.Italic ∧
    c.font_underline = c.addFont Style.Underline ∧
    c.font_blink = c.addFont Style.Blink ∧
    c.font_reverse = c.addFont Style.Reverse ∧
    c.font_hidden = c.addFont Style.Hidden ∧
    c.font_strikethrough = c.addFont Style.Strikethrough :=
  ⟨rfl, rfl, rfl, rfl, rfl, rfl, rfl, rfl, rfl, rfl,
   rfl, rfl, rfl, rfl, rfl, rfl, rfl, rfl, rfl, rfl,
   rfl, rfl, rfl, rfl, rfl, rfl, rfl, rfl, rfl, rfl,
   rfl, rfl, rfl, rfl, rfl, rfl, rfl, rfl, rfl, rfl⟩

/-- C8: setting the foreground (or background) twice keeps only the
second color, while adding a style twice appends both in call order,
the sequence growing by one per call with duplicates kept. -/
theorem overwrite_vs_append (c : CLW) (c1 c2 : Color) (s1 s2 : Style) :
    (c.setText c1).setText c2 = c.setText c2 ∧
    (c.setBg c1).setBg c2 = c.setBg c2 ∧
    ((c.addFont s1).addFont s2).font = c.font ++ [s1, s2] ∧
    (c.addFont s1).font.length = c.font.length + 1 ∧
    ((c.addFont s1).addFont s2).font.length = c.font.length + 2 :=
  ⟨rfl, rfl, by simp [CLW.addFont], by simp [CLW.addFont], by simp [CLW.addFont]⟩

/-- C9: for every named color the foreground code parses back as a u8,
so the `unwrap_or(30)` fallback is never taken and the background code
is exactly the parsed value plus 10. -/
theorem named_bg_no_fallback (c : Color) (h : c.isNamed = true) :
    ∃ n, parse_u8 c.to_ansi_code = some n ∧ c.to_bg_ansi_code = toString (n + 10) := by
  cases c with
  | Black => exact ⟨30, by decide, by decide⟩
  | Red => exact ⟨31, by decide, by decide⟩
  | Green => exact ⟨32, by decide, by decide⟩
  | Yellow => exact ⟨33, by decide, by decide⟩
  | Blue => exact ⟨34, by decide, by decide⟩
  | Magenta => exact ⟨35, by decide, by decide⟩
  | Cyan => exact ⟨36, by decide, by decide⟩
  | White => exact ⟨37, by decide, by decide⟩
  | BrightBlack => exact ⟨90, by decide, by decide⟩
  | BrightRed => exact ⟨91, by decide, by decide⟩
  | BrightGreen => exact ⟨92, by decide, by decide⟩
  | BrightYellow => exact ⟨93, by decide, by decide⟩
  | BrightBlue => exact ⟨94, by decide, by decide⟩
  | BrightMagenta => exact ⟨95, by decide, by decide⟩
  | BrightCyan => exact ⟨96, by decide, by decide⟩
  | BrightWhite => exact ⟨97, by decide, by decide⟩
  | Rgb r g b => simp [Color.isNamed] at h
  | Color256 n => simp [Color.isNamed] at h
  | Hex n => simp [Color.isNamed] at h

/-- Witness for C9: Red parses as 31 and its background code is 41. -/
theorem named_bg_no_fallback_witness :
    Color.Red.isNamed = true ∧
    ∃ n, parse_u8 Color.Red.to_ansi_code = some n ∧
      Color.Red.to_bg_ansi_code = toString (n + 10) :=
  ⟨by decide, named_bg_no_fallback Color.Red (by decide)⟩

/-- C10: every builder operation leaves the payload unchanged and
touches only its own field; `addFont` only appends to the style list. -/
theorem setters_frame (c : CLW) (color : Color) (style : Style) :
    (c.setText color).value = c.value ∧ (c.setText color).bg = c.bg ∧
    (c.setText color).font = c.font ∧
    (c.setBg color).value = c.value ∧ (c.setBg color).text = c.text ∧
    (c.setBg color).font = c.font ∧
    (c.addFont style).value = c.value ∧ (c.addFont style).text = c.text ∧
    (c.addFont style).bg = c.bg ∧ (c.addFont style).font = c.font ++ [style] :=
  ⟨rfl, rfl, rfl, rfl, rfl, rfl, rfl, rfl, rfl, rfl⟩
